import Mathlib

/-!
Shallow embedding of `whatUdoingbot.py` (final revision): the per-user
session state machine of the what-u-doing Slack bot, with its command
dispatcher, follow-up timer accounting and pickle-based persistence hooks.

Modelling conventions:
* Timestamps and durations are integers counting seconds (`datetime.now()`
  readings and `timedelta` values); `FOLLOWUP_TIME = timedelta(hours=1)`
  becomes `3600`.
* Python `None`-able attributes become `Option`; an operation that would
  dereference a `None` (raising `TypeError`/`AttributeError`) is modelled by
  returning `none` for the whole transition.
* The live `threading.Timer` handle is modelled by `timer : Option Int`:
  `some d` means a started, still-pending timer created with raw delay `d`
  seconds; `none` means no pending timer (never created, cancelled, or
  already fired).  The `threading.Lock` is not part of the state: every
  transition below is one critical section of the source (command handling
  and the timer callback both run under `self._lock`), so transitions are
  atomic here.
* Outbound effects (chat messages, log-file lines, the stats file upload)
  are collected as a list of `Event`s, in the order the source emits them.
  Rendering of timestamps to text (`str(datetime...)`) is abstracted by the
  formatter functions in `Env`; `str.lower` and `str.split(None, 1)` are
  modelled at ASCII fidelity.
-/

namespace WhatUDoing

/-- FOLLOWUP_TIME = timedelta(hours=1), in seconds. -/
def FOLLOWUP_TIME : Int := 3600

def MORNING_MESSAGE : String :=
  "Good morning. Let\x27s start creating awesome sound experiences. Have a great day!"

def REQUEST_FOR_UPDATE : String :=
  "Hey, just checking up. Can you let me know what have you been doing?"

def INVALID_INPUT : String :=
  "Not sure what you mean. Type help to get possible commands"

def NO_ACCEPT_ARGUMENTS : String :=
  "Don\x27t understand this command if followed by further text :/"

def UPDATE_MESSAGE : String := "Thanks for the update!"

def PAUSE_MESSAGE : String :=
  "All right, time for a break. Do remember to inform me when you return!"

def RESUME_MESSAGE : String := "Hello again!"

def LOGOUT_MESSAGE : String := "Bye bye!"

def HELP_MESSAGE : String :=
  "I\x27m _what_u_doing_, a bot to help you log your hourly tasks." ++
  " Here are the commands that I understand for now:\n\n" ++
  "*login* - Type this when you start your work day\n\n" ++
  "*pause* - Want to take a break?" ++
  " Type pause to ensure that the bot doesn\x27t keep pestering you.\n\n" ++
  "*resume* - Type this when you again start working after a pause." ++
  " You should do this immediately after your break is over.\n\n" ++
  "*update* - This is the main command. Whenever you want to share an update," ++
  " write `update xyz`, where xyz is the work you did since the last update.\n\n" ++
  "*logout* - Done for the day? Just type logout to tell the bot!\n\n" ++
  "For any queries or suggestions, reach out to what_u_doing_bot@soundrex.com ASAP."

def STATS_MESSAGE : String :=
  "Your Work Update for %date:\n\n" ++
  "Today you worked for %time_worked. Here\x27s what you did in that time:\n" ++
  "%tasks\n\n" ++
  "Cheers!"

/-- class Status(Enum). -/
inductive Status where
  | active
  | paused
  | logged_out
deriving DecidableEq, Repr

/-- mismatch_message dictionary: the rejection text keyed by the current status. -/
def mismatch_message : Status → String
  | .active => "Can\x27t do this when you\x27re already active!"
  | .paused => "Can\x27t do this while on a pause."
  | .logged_out => "Can\x27t do this while logged out."

/-- Observable side effects of one transition, in emission order. -/
inductive Event where
  /-- slack_client.api_call("chat.postMessage", channel, text). -/
  | message (channel : String) (text : String)
  /-- User._log: a line appended to the per-user log file. -/
  | log (path : String) (text : String)
  /-- slack_client.api_call("files.upload", channels, content, filename);
      the channels string is ",".join of this set, whose order Python does
      not fix, so the set itself is recorded. -/
  | fileUpload (channels : Finset String) (content : String) (filename : String)
deriving DecidableEq

/-- Ambient configuration: the ADMINS set from argv, plus the Python text
renderings the report interpolates (str of a timedelta given in seconds, and
str(datetime.now().date()) given the current time in seconds). -/
structure Env where
  admins : Finset String
  fmtTimedelta : Int → String
  fmtDate : Int → String

/-- The durable and live per-user session state (class User).  The
threading.Lock is omitted (see the module docstring); `timer` stands for the
pending-timer aspect of the `_timer` handle. -/
structure User where
  id : String
  name : String
  status : Status
  timer_start_time : Option Int
  timer : Option Int
  pause_time : Option Int
  log_file_path : String
  working_time : Option Int
  updates : Option (List String)
deriving DecidableEq, Repr

/-- User.__init__(data): fresh logged-out session from roster data. -/
def User.create (uid uname : String) : User :=
  { id := uid
    name := uname
    status := .logged_out
    timer_start_time := none
    timer := none
    pause_time := none
    log_file_path := "logs/" ++ uname ++ ".log"
    working_time := none
    updates := none }

/-- User._slack_message(message). -/
def User.slack_message (u : User) (text : String) : Event := .message u.id text

/-- User._log(message): the timestamp the source prepends is rendered by the
adapter, so only the message reaches the event. -/
def User.logLine (u : User) (text : String) : Event := .log u.log_file_path text

/-- User._initiate_followup(elapsed_time): anchor the apparent start time
`elapsed_time` before now and start a Timer with raw delay
FOLLOWUP_TIME - elapsed_time. -/
def User.initiate_followup (u : User) (now : Int) (elapsed_time : Int) : User :=
  { u with timer_start_time := some (now - elapsed_time)
           timer := some (FOLLOWUP_TIME - elapsed_time) }

/-- Effective delay of a started threading.Timer: Event.wait treats a
non-positive timeout as an immediate return, so a timer created with raw
delay `d` actually fires after `max d 0` seconds. -/
def effectiveDelay (d : Int) : Int := max d 0

/-- User._timely_followup: the timer callback.  It runs under the lock and
re-checks the status; the whole critical section is this one transition. -/
def User.timely_followup (u : User) (now : Int) : Option (User × List Event) :=
  if u.status = .active then do
    let wt ← u.working_time
    let u1 : User := { u with working_time := some (wt + FOLLOWUP_TIME) }
    some (u1.initiate_followup now 0, [u.slack_message REQUEST_FOR_UPDATE])
  else
    some (u, [])

/-- User.help (body behind the arity wrapper). -/
def User.help (u : User) : Option (User × List Event) :=
  some (u, [u.slack_message HELP_MESSAGE])

/-- User.login (body behind the decorators). -/
def User.login (u : User) (now : Int) : Option (User × List Event) :=
  let u1 : User := { u with updates := some [], status := .active, working_time := some 0 }
  some (u1.initiate_followup now 0,
    [u.slack_message MORNING_MESSAGE, u.logLine "Logged in"])

/-- User.update(content) (body behind the decorators). -/
def User.update (u : User) (content : String) (now : Int) : Option (User × List Event) := do
  let ups ← u.updates
  let anchor ← u.timer_start_time
  let wt ← u.working_time
  let u1 : User := { u with updates := some (ups ++ [content])
                            timer := none
                            working_time := some (wt + (now - anchor)) }
  some (u1.initiate_followup now 0,
    [u.slack_message UPDATE_MESSAGE,
     u.logLine ("Work update: " ++ content.replace "\n" "\n\t")])

/-- User.pause (body behind the decorators). -/
def User.pause (u : User) (now : Int) : Option (User × List Event) :=
  some ({ u with status := .paused, pause_time := some now, timer := none },
    [u.slack_message PAUSE_MESSAGE, u.logLine "Paused for break"])

/-- User.resume (body behind the decorators). -/
def User.resume (u : User) (now : Int) : Option (User × List Event) := do
  let pt ← u.pause_time
  let anchor ← u.timer_start_time
  let u1 : User := { u with status := .active }
  some (u1.initiate_followup now (pt - anchor),
    [u.slack_message RESUME_MESSAGE, u.logLine "Resumed working"])

/-- The "%tasks" interpolation of _relay_stats:
"\n".join(" => " + x.replace("\n", "\n    ") for each update). -/
def tasksString (updates : List String) : String :=
  String.intercalate "\n" (updates.map fun x => " => " ++ x.replace "\n" "\n    ")

/-- STATS_MESSAGE with its three placeholders substituted, in source order. -/
def statsContent (dateStr timeWorkedStr : String) (updates : List String) : String :=
  ((STATS_MESSAGE.replace "%date" dateStr).replace "%time_worked" timeWorkedStr).replace
    "%tasks" (tasksString updates)

/-- User._relay_stats: the files.upload call.  The time-worked field is
str(working_time)[:-10] + " hours". -/
def User.relay_stats (u : User) (env : Env) (now : Int) : Option Event := do
  let ups ← u.updates
  let wt ← u.working_time
  some (.fileUpload (env.admins ∪ {"@" ++ u.name})
    (statsContent (env.fmtDate now) ((env.fmtTimedelta wt).dropRight 10 ++ " hours") ups)
    (u.name ++ "_stats.txt"))

/-- User.logout (body behind the decorators): final_time is now when active,
else the recorded pause time. -/
def User.logout (u : User) (env : Env) (now : Int) : Option (User × List Event) := do
  let anchor ← u.timer_start_time
  let wt ← u.working_time
  let final_time ← if u.status = .active then some now else u.pause_time
  let u1 : User := { u with working_time := some (wt + (final_time - anchor))
                            status := .logged_out
                            timer := none }
  let report ← u1.relay_stats env now
  some (u1, [u.slack_message LOGOUT_MESSAGE, u.logLine "Logged out", report])

/-- The _allowed_status decorator: run the wrapped command only when the
current status is in the list, else send the mismatch message for the
current status and change nothing. -/
def withGuard (statuses : List Status) (u : User) (body : Option (User × List Event)) :
    Option (User × List Event) :=
  if u.status ∈ statuses then body
  else some (u, [u.slack_message (mismatch_message u.status)])

/-- The _command wrapper for a zero-parameter command: reject any argument
with NO_ACCEPT_ARGUMENTS. -/
def withArity0 (u : User) (args : List String) (body : Option (User × List Event)) :
    Option (User × List Event) :=
  match args with
  | [] => body
  | _ => some (u, [u.slack_message NO_ACCEPT_ARGUMENTS])

/-- The _command wrapper for a one-parameter command: a missing argument is
filled with the empty string (the two-or-more case is unreachable since the
splitter yields at most one argument, but mirrors the source's reject). -/
def withArity1 (u : User) (args : List String) (body : String → Option (User × List Event)) :
    Option (User × List Event) :=
  match args with
  | [a] => body a
  | [] => body ""
  | _ => some (u, [u.slack_message NO_ACCEPT_ARGUMENTS])

/-- Resolution of a lowered verb, as getattr + the decorators produce it:
the six marked commands (with _allowed_status outside _command, hence the
status guard runs before the arity check), any other name is INVALID_INPUT. -/
def User.dispatch (u : User) (env : Env) (verb : String) (args : List String) (now : Int) :
    Option (User × List Event) :=
  if verb = "help" then withArity0 u args u.help
  else if verb = "login" then
    withGuard [.logged_out] u (withArity0 u args (u.login now))
  else if verb = "update" then
    withGuard [.active] u (withArity1 u args fun c => u.update c now)
  else if verb = "pause" then
    withGuard [.active] u (withArity0 u args (u.pause now))
  else if verb = "resume" then
    withGuard [.paused] u (withArity0 u args (u.resume now))
  else if verb = "logout" then
    withGuard [.active, .paused] u (withArity0 u args (u.logout env now))
  else some (u, [u.slack_message INVALID_INPUT])

/-- Characters Python str.split treats as whitespace (ASCII range). -/
def pyWhite (c : Char) : Bool :=
  c == ' ' || c == '\t' || c == '\n' || c == '\r' || c == '\x0b' || c == '\x0c'

/-- user_input.split(None, 1): strip leading whitespace, take the first
whitespace-free token, consume the separating whitespace run, and keep the
remainder verbatim; an all-whitespace input gives no tokens. -/
def pySplitNone1 (s : String) : List String :=
  let cs := s.data.dropWhile pyWhite
  if cs = [] then []
  else
    let tok := cs.takeWhile fun c => !pyWhite c
    let rest := (cs.dropWhile fun c => !pyWhite c).dropWhile pyWhite
    if rest.isEmpty then [String.mk tok] else [String.mk tok, String.mk rest]

/-- tokens[0].lower(), at ASCII fidelity: lower-case each character. -/
def pyLower (s : String) : String := String.mk (s.data.map Char.toLower)

/-- User.handle_command(user_input): split, lower the verb, dispatch; an
empty token list does nothing at all. -/
def User.handle_command (u : User) (env : Env) (input : String) (now : Int) :
    Option (User × List Event) :=
  match pySplitNone1 input with
  | [] => some (u, [])
  | verb :: rest => u.dispatch env (pyLower verb) rest now

/-- User.__getstate__: the attribute dict with the _timer and _lock slots
nulled; with the lock outside the model this is the state with no pending
timer. -/
def User.getstate (u : User) : User := { u with timer := none }

/-- User.__setstate__: restore the dict, make a fresh lock and an inert
dummy timer, and when the session was active re-arm the follow-up with
now - timer_start_time as the already-elapsed time. -/
def User.setstate (s : User) (now : Int) : Option User :=
  if s.status = .active then do
    let anchor ← s.timer_start_time
    some (User.initiate_followup { s with timer := none } now (now - anchor))
  else
    some { s with timer := none }

/-- Allowed-status sets, exactly the _allowed_status decorator arguments of
the five guarded commands (help carries no guard). -/
def allowed_statuses (v : String) : Option (List Status) :=
  if v = "login" then some [.logged_out]
  else if v = "update" then some [.active]
  else if v = "pause" then some [.active]
  else if v = "resume" then some [.paused]
  else if v = "logout" then some [.active, .paused]
  else none

/-- The commands whose bodies take no free-text parameter (num_params = 0
in the _command wrapper). -/
def zero_arg_commands : List String := ["help", "login", "pause", "resume", "logout"]

/-- One transition of a session: a delivered command (handle_command under
the lock) or the follow-up timer callback, at some clock reading. -/
inductive Step (env : Env) : User → User → Prop
  | cmd (input : String) (now : Int) (u u' : User) (evs : List Event)
      (h : u.handle_command env input now = some (u', evs)) : Step env u u'
  | fire (now : Int) (u u' : User) (evs : List Event)
      (h : u.timely_followup now = some (u', evs)) : Step env u u'

/-- States reachable from a given session state by command and timer
transitions. -/
def Reachable (env : Env) (u0 u : User) : Prop :=
  Relation.ReflTransGen (Step env) u0 u

/-- Concrete environment for the evaluated instances below: no admins, and
formatters that render every timestamp as the empty string. -/
def env0 : Env := ⟨∅, fun _ => "", fun _ => ""⟩

/-- Concrete session right after a login at time 0 with one pending update
recorded at time 0 (fields as `login` then bookkeeping would leave them). -/
def exActive : User :=
  { User.create "U1" "alice" with
      status := .active
      timer_start_time := some 0
      timer := some FOLLOWUP_TIME
      working_time := some 0
      updates := some ["wrote the spec"] }

/-- Concrete paused session: `exActive` after a pause at time 100. -/
def exPaused : User :=
  { exActive with status := .paused, pause_time := some 100, timer := none }

/-- First state of the concrete login/pause/logout run used as evaluated
instance: the result of delivering "login" at time 0 to a fresh session. -/
def cex1 : User × List Event :=
  ((User.create "U1" "alice").handle_command env0 "login" 0).getD
    (User.create "U1" "alice", [])

/-- Second state of the concrete run: "pause" delivered at time 100. -/
def cex2 : User × List Event := (cex1.1.handle_command env0 "pause" 100).getD (cex1.1, [])

/-- Third state of the concrete run: "logout" delivered at time 200. -/
def cex3 : User × List Event := (cex2.1.handle_command env0 "logout" 200).getD (cex2.1, [])

/-- Helper: the intercalate accumulator only ever grows on the right. -/
theorem intercalate_go_acc (as : List String) :
    ∀ acc s : String, ∃ t, String.intercalate.go acc s as = acc ++ t := by
  induction as with
  | nil => intro acc s; exact ⟨"", (String.append_empty acc).symm⟩
  | cons a as ih =>
    intro acc s
    obtain ⟨t, ht⟩ := ih (acc ++ s ++ a) s
    refine ⟨s ++ a ++ t, ?_⟩
    show String.intercalate.go (acc ++ s ++ a) s as = _
    rw [ht, String.append_assoc, String.append_assoc, String.append_assoc]

/-- Helper: any member of the tail list occurs verbatim inside the
intercalation. -/
theorem intercalate_go_mem (as : List String) :
    ∀ acc s x : String, x ∈ as →
      ∃ p q, String.intercalate.go acc s as = p ++ x ++ q := by
  induction as with
  | nil => intro acc s x hx; cases hx
  | cons a as ih =>
    intro acc s x hx
    rcases List.mem_cons.mp hx with h | h
    · subst h
      obtain ⟨t, ht⟩ := intercalate_go_acc as (acc ++ s ++ x) s
      exact ⟨acc ++ s, t, ht⟩
    · obtain ⟨p, q, hpq⟩ := ih (acc ++ s ++ a) s x h
      exact ⟨p, q, hpq⟩

/-- Helper: every member of a list occurs verbatim inside its
intercalation. -/
theorem mem_intercalate (l : List String) (s x : String) (hx : x ∈ l) :
    ∃ p q, String.intercalate s l = p ++ x ++ q := by
  cases l with
  | nil => cases hx
  | cons a as =>
    rcases List.mem_cons.mp hx with h | h
    · subst h
      obtain ⟨t, ht⟩ := intercalate_go_acc as x s
      exact ⟨"", t, ht⟩
    · exact intercalate_go_mem as a s x h

/-- Helper: every update appears (in its rendered form) inside the %tasks
text of the report. -/
theorem mem_tasksString (ups : List String) (x : String) (hx : x ∈ ups) :
    ∃ p q, tasksString ups = p ++ (" => " ++ x.replace "\n" "\n    ") ++ q :=
  mem_intercalate _ _ _ (List.mem_map_of_mem _ hx)

/-- Helper: a successful login leaves the session active. -/
theorem login_shape {u : User} {now : Int} {u' : User} {evs : List Event}
    (h : u.login now = some (u', evs)) : u'.status = .active := by
  simp only [User.login, Option.some_inj, Prod.mk.injEq] at h
  rw [← h.1]
  rfl

/-- Helper: a successful update does not change the status field. -/
theorem update_shape {u : User} {c : String} {now : Int} {u' : User} {evs : List Event}
    (h : u.update c now = some (u', evs)) : u'.status = u.status := by
  rcases hu : u.updates with _ | ups <;>
    rcases ha : u.timer_start_time with _ | a <;>
      rcases hw : u.working_time with _ | wt <;>
        simp only [User.update, hu, ha, hw, bind, Option.bind, Option.some_inj,
          Prod.mk.injEq, reduceCtorEq] at h
  rw [← h.1]
  rfl

/-- Helper: a successful pause leaves the session paused. -/
theorem pause_shape {u : User} {now : Int} {u' : User} {evs : List Event}
    (h : u.pause now = some (u', evs)) : u'.status = .paused := by
  simp only [User.pause, Option.some_inj, Prod.mk.injEq] at h
  rw [← h.1]

/-- Helper: a successful resume leaves the session active. -/
theorem resume_shape {u : User} {now : Int} {u' : User} {evs : List Event}
    (h : u.resume now = some (u', evs)) : u'.status = .active := by
  rcases hp : u.pause_time with _ | pt <;>
    rcases ha : u.timer_start_time with _ | a <;>
      simp only [User.resume, hp, ha, bind, Option.bind, Option.some_inj,
        Prod.mk.injEq, reduceCtorEq] at h
  rw [← h.1]
  rfl

/-- Helper: a successful logout leaves the session logged out with its
timer cancelled. -/
theorem logout_shape {u : User} {env : Env} {now : Int} {u' : User} {evs : List Event}
    (h : u.logout env now = some (u', evs)) :
    u'.status = .logged_out ∧ u'.timer = none := by
  rcases ha : u.timer_start_time with _ | a <;>
    rcases hw : u.working_time with _ | wt <;>
      rcases hp : u.pause_time with _ | pt <;>
        rcases hu : u.updates with _ | ups <;>
          by_cases hs : u.status = .active <;>
            simp only [User.logout, User.relay_stats, ha, hw, hp, hu, hs, if_pos, if_neg,
              if_true, if_false, bind, Option.bind, Option.some_inj, Prod.mk.injEq,
              reduceCtorEq, not_false_eq_true] at h <;>
          · rw [← h.1]
            exact ⟨rfl, rfl⟩

/-- Helper: the timer callback either leaves the state untouched or keeps
the status it found. -/
theorem timely_followup_shape {u : User} {now : Int} {u' : User} {evs : List Event}
    (h : u.timely_followup now = some (u', evs)) :
    u' = u ∨ u'.status = u.status := by
  by_cases hs : u.status = .active
  · rcases hw : u.working_time with _ | wt <;>
      simp only [User.timely_followup, hs, hw, if_true, if_pos, bind, Option.bind,
        Option.some_inj, Prod.mk.injEq, reduceCtorEq] at h
    right
    rw [← h.1]
    simp [User.initiate_followup, hs]
  · simp only [User.timely_followup, if_neg hs, Option.some_inj, Prod.mk.injEq] at h
    exact Or.inl h.1.symm

/-- Helper: a command transition out of a state either leaves the state
untouched, ends active or paused, or ends logged out with no timer. -/
theorem dispatch_shape {u : User} {env : Env} {verb : String} {args : List String}
    {now : Int} {u' : User} {evs : List Event}
    (h : u.dispatch env verb args now = some (u', evs)) :
    u' = u ∨ u'.status = .active ∨ u'.status = .paused ∨
      (u'.status = .logged_out ∧ u'.timer = none) := by
  unfold User.dispatch at h
  split_ifs at h
  case _ =>
    unfold withArity0 at h
    rcases args with _ | ⟨a, as⟩
    · simp only [User.help, Option.some_inj, Prod.mk.injEq] at h
      exact Or.inl h.1.symm
    · simp only [Option.some_inj, Prod.mk.injEq] at h
      exact Or.inl h.1.symm
  case _ =>
    unfold withGuard at h
    split_ifs at h
    · unfold withArity0 at h
      rcases args with _ | ⟨a, as⟩
      · exact Or.inr (Or.inl (login_shape h))
      · simp only [Option.some_inj, Prod.mk.injEq] at h
        exact Or.inl h.1.symm
    · simp only [Option.some_inj, Prod.mk.injEq] at h
      exact Or.inl h.1.symm
  case _ =>
    unfold withGuard at h
    split_ifs at h with hg
    · unfold withArity1 at h
      simp only [List.mem_singleton] at hg
      rcases args with _ | ⟨a, _ | ⟨b, as⟩⟩
      · exact Or.inr (Or.inl ((update_shape h).trans hg))
      · exact Or.inr (Or.inl ((update_shape h).trans hg))
      · simp only [Option.some_inj, Prod.mk.injEq] at h
        exact Or.inl h.1.symm
    · simp only [Option.some_inj, Prod.mk.injEq] at h
      exact Or.inl h.1.symm
  case _ =>
    unfold withGuard at h
    split_ifs at h
    · unfold withArity0 at h
      rcases args with _ | ⟨a, as⟩
      · exact Or.inr (Or.inr (Or.inl (pause_shape h)))
      · simp only [Option.some_inj, Prod.mk.injEq] at h
        exact Or.inl h.1.symm
    · simp only [Option.some_inj, Prod.mk.injEq] at h
      exact Or.inl h.1.symm
  case _ =>
    unfold withGuard at h
    split_ifs at h
    · unfold withArity0 at h
      rcases args with _ | ⟨a, as⟩
      · exact Or.inr (Or.inl (resume_shape h))
      · simp only [Option.some_inj, Prod.mk.injEq] at h
        exact Or.inl h.1.symm
    · simp only [Option.some_inj, Prod.mk.injEq] at h
      exact Or.inl h.1.symm
  case _ =>
    unfold withGuard at h
    split_ifs at h
    · unfold withArity0 at h
      rcases args with _ | ⟨a, as⟩
      · exact Or.inr (Or.inr (Or.inr (logout_shape h)))
      · simp only [Option.some_inj, Prod.mk.injEq] at h
        exact Or.inl h.1.symm
    · simp only [Option.some_inj, Prod.mk.injEq] at h
      exact Or.inl h.1.symm
  case _ =>
    simp only [Option.some_inj, Prod.mk.injEq] at h
    exact Or.inl h.1.symm

/-- Helper: one transition preserves the logged-out-has-no-timer fact. -/
theorem step_timer_inv {env : Env} {u u' : User} (h : Step env u u')
    (ih : u.status = .logged_out → u.timer = none) :
    u'.status = .logged_out → u'.timer = none := by
  cases h with
  | cmd input now _ _ evs hc =>
    unfold User.handle_command at hc
    rcases hsp : pySplitNone1 input with _ | ⟨verb, rest⟩ <;> rw [hsp] at hc
    · simp only [Option.some_inj, Prod.mk.injEq] at hc
      rw [← hc.1]
      exact ih
    · rcases dispatch_shape hc with he | hs | hs | hs
      · rw [he]; exact ih
      · intro hl; rw [hs] at hl; cases hl
      · intro hl; rw [hs] at hl; cases hl
      · intro _; exact hs.2
  | fire now _ _ evs hf =>
    rcases timely_followup_shape hf with he | hs
    · rw [he]; exact ih
    · intro hl
      rw [hs] at hl
      by_cases ha : u.status = .active
      · rw [ha] at hl; cases hl
      · have : u' = u := by
          unfold User.timely_followup at hf
          rw [if_neg ha] at hf
          simp only [Option.some_inj, Prod.mk.injEq] at hf
          exact hf.1.symm
        rw [this]
        exact ih hl

/-- Helper: any guarded command delivered while the status is outside its
allowed set answers with the mismatch message for the current status and
changes nothing, whatever the arguments. -/
theorem dispatch_guard_fail (env : Env) (u : User) (now : Int) (verb : String)
    (args : List String) (ss : List Status)
    (hv : allowed_statuses verb = some ss) (hs : u.status ∉ ss) :
    u.dispatch env verb args now =
      some (u, [Event.message u.id (mismatch_message u.status)]) := by
  unfold allowed_statuses at hv
  split_ifs at hv with h1 h2 h3 h4 h5
  · injection hv with hv
    subst hv h1
    simp only [User.dispatch, if_neg (by decide : ¬("login":String) = "help"), if_pos rfl]
    unfold withGuard
    rw [if_neg hs]
    rfl
  · injection hv with hv
    subst hv h2
    simp only [User.dispatch, if_neg (by decide : ¬("update":String) = "help"),
      if_neg (by decide : ¬("update":String) = "login"), if_pos rfl]
    unfold withGuard
    rw [if_neg hs]
    rfl
  · injection hv with hv
    subst hv h3
    simp only [User.dispatch, if_neg (by decide : ¬("pause":String) = "help"),
      if_neg (by decide : ¬("pause":String) = "login"),
      if_neg (by decide : ¬("pause":String) = "update"), if_pos rfl]
    unfold withGuard
    rw [if_neg hs]
    rfl
  · injection hv with hv
    subst hv h4
    simp only [User.dispatch, if_neg (by decide : ¬("resume":String) = "help"),
      if_neg (by decide : ¬("resume":String) = "login"),
      if_neg (by decide : ¬("resume":String) = "update"),
      if_neg (by decide : ¬("resume":String) = "pause"), if_pos rfl]
    unfold withGuard
    rw [if_neg hs]
    rfl
  · injection hv with hv
    subst hv h5
    simp only [User.dispatch, if_neg (by decide : ¬("logout":String) = "help"),
      if_neg (by decide : ¬("logout":String) = "login"),
      if_neg (by decide : ¬("logout":String) = "update"),
      if_neg (by decide : ¬("logout":String) = "pause"),
      if_neg (by decide : ¬("logout":String) = "resume"), if_pos rfl]
    unfold withGuard
    rw [if_neg hs]
    rfl

/-- C1: when the follow-up timer callback runs it re-checks the status
under the lock: for an Active session it adds exactly one full
FOLLOWUP_TIME to the accumulated work time, sends the nag message and
rearms the timer at the full interval with the anchor set to now; for a
non-Active session (a pause or logout won the lock first) it leaves every
field unchanged and sends nothing. -/
theorem timer_callback_spec (u : User) (now wt : Int) (hw : u.working_time = some wt) :
    (u.status = .active →
      u.timely_followup now =
        some ({ u with working_time := some (wt + FOLLOWUP_TIME),
                       timer_start_time := some now,
                       timer := some FOLLOWUP_TIME },
          [Event.message u.id REQUEST_FOR_UPDATE]))
    ∧ (u.status ≠ .active → u.timely_followup now = some (u, [])) := by
  constructor
  · intro hs
    simp [User.timely_followup, hs, hw, bind, Option.bind, User.initiate_followup,
      User.slack_message]
  · intro hs
    simp [User.timely_followup, hs]

/-- Evaluated instance for C1: the callback at time 3600 on the concrete
active session adds one interval, nags, and rearms at the full interval. -/
theorem timer_callback_spec_witness :
    exActive.timely_followup 3600 =
      some ({ exActive with working_time := some (0 + FOLLOWUP_TIME),
                            timer_start_time := some 3600,
                            timer := some FOLLOWUP_TIME },
        [Event.message exActive.id REQUEST_FOR_UPDATE]) :=
  (timer_callback_spec exActive 3600 0 rfl).1 rfl

/-- C2: resume on a Paused session goes back to Active, starts a timer
whose raw delay is FOLLOWUP_TIME - (pause_time - anchor) — whose effective
delay is that value clamped to be at least zero, threading.Timer treating a
negative timeout as zero — re-anchors at now minus the already-elapsed
part so accounting is continuous, and leaves the accumulated work time and
pending updates unchanged. -/
theorem resume_spec (env : Env) (u : User) (now pt a : Int)
    (hs : u.status = .paused) (hp : u.pause_time = some pt)
    (ha : u.timer_start_time = some a) :
    u.dispatch env "resume" [] now =
      some ({ u with status := .active,
                     timer_start_time := some (now - (pt - a)),
                     timer := some (FOLLOWUP_TIME - (pt - a)) },
        [Event.message u.id RESUME_MESSAGE, Event.log u.log_file_path "Resumed working"])
    ∧ effectiveDelay (FOLLOWUP_TIME - (pt - a)) = max 0 (FOLLOWUP_TIME - (pt - a))
    ∧ 0 ≤ effectiveDelay (FOLLOWUP_TIME - (pt - a)) := by
  refine ⟨?_, max_comm _ _, le_max_right _ _⟩
  simp [User.dispatch, withGuard, withArity0, hs, User.resume, hp, ha, bind, Option.bind,
    User.initiate_followup, User.slack_message, User.logLine]

/-- Evaluated instance for C2: resuming at time 400 a session paused at
time 100 with anchor 0 yields a timer with 3500 seconds left and apparent
anchor 300. -/
theorem resume_spec_witness :
    exPaused.dispatch env0 "resume" [] 400 =
      some ({ exPaused with status := .active,
                            timer_start_time := some (400 - (100 - 0)),
                            timer := some (FOLLOWUP_TIME - (100 - 0)) },
        [Event.message exPaused.id RESUME_MESSAGE,
         Event.log exPaused.log_file_path "Resumed working"]) :=
  (resume_spec env0 exPaused 400 100 0 rfl rfl rfl).1

/-- C3: the persisted projection of a session nulls the live timer handle;
rehydrating it restores identical status, accumulated work time, pending
updates, anchor and pause time, reconstructing the live fields fresh, and
for an Active session re-arms the timer with now - anchor counted as
already elapsed, so the remaining delay is reduced rather than reset. -/
theorem persistence_roundtrip (u : User) (now a : Int) :
    u.getstate.timer = none
    ∧ (u.status ≠ .active → u.getstate.setstate now = some u.getstate)
    ∧ (u.status = .active → u.timer_start_time = some a →
        u.getstate.setstate now =
          some { u with timer_start_time := some a,
                        timer := some (FOLLOWUP_TIME - (now - a)) }) := by
  refine ⟨rfl, ?_, ?_⟩
  · intro hs
    simp [User.setstate, User.getstate, hs]
  · intro hs ha
    simp [User.setstate, User.getstate, hs, ha, bind, Option.bind, User.initiate_followup,
      sub_sub_cancel]

/-- Evaluated instance for C3: pickling the concrete active session and
unpickling it 1000 seconds after its anchor re-arms the timer with 2600
seconds left and the anchor unchanged. -/
theorem persistence_roundtrip_witness :
    exActive.getstate.setstate 1000 =
      some { exActive with timer_start_time := some 0,
                           timer := some (FOLLOWUP_TIME - (1000 - 0)) } :=
  (persistence_roundtrip exActive 1000 0).2.2 rfl rfl

/-- C8: a command delivered while the current status is outside its
allowed-status set answers with the rejection message naming the current
status — the mismatch messages being distinct for distinct statuses — and
mutates no session field. -/
theorem illegal_transition_spec (env : Env) (u : User) (now : Int) (verb : String)
    (args : List String) (ss : List Status)
    (hv : allowed_statuses verb = some ss) (hs : u.status ∉ ss) :
    u.dispatch env verb args now =
      some (u, [Event.message u.id (mismatch_message u.status)])
    ∧ Function.Injective mismatch_message :=
  ⟨dispatch_guard_fail env u now verb args ss hv hs,
   fun a b h => by cases a <;> cases b <;> revert h <;> decide⟩

/-- Evaluated instance for C8: update while Paused is rejected with the
Paused mismatch message and no mutation. -/
theorem illegal_transition_spec_witness :
    exPaused.dispatch env0 "update" ["foo"] 0 =
      some (exPaused, [Event.message exPaused.id (mismatch_message exPaused.status)])
    ∧ Function.Injective mismatch_message :=
  illegal_transition_spec env0 exPaused 0 "update" ["foo"] [.active] rfl (by decide)

/-- C10: a status-guarded zero-argument command sent with trailing text
from a disallowed status is answered by the illegal-transition message for
the current status — the guard runs before the arity check, so the
no-arguments message (a different string from every mismatch message) is
not sent — and nothing is mutated. -/
theorem guard_before_arity_spec (env : Env) (u : User) (now : Int) (verb : String)
    (arg : String) (args : List String) (ss : List Status)
    (_hz : verb ∈ zero_arg_commands) (hv : allowed_statuses verb = some ss)
    (hs : u.status ∉ ss) :
    u.dispatch env verb (arg :: args) now =
      some (u, [Event.message u.id (mismatch_message u.status)])
    ∧ (∀ st : Status, mismatch_message st ≠ NO_ACCEPT_ARGUMENTS) :=
  ⟨dispatch_guard_fail env u now verb (arg :: args) ss hv hs,
   fun st => by cases st <;> decide⟩

/-- Evaluated instance for C10: a LoggedOut user sending "pause now" gets
the logged-out mismatch message, not the no-arguments message. -/
theorem guard_before_arity_spec_witness :
    (User.create "U1" "alice").dispatch env0 "pause" ["now"] 0 =
      some (User.create "U1" "alice",
        [Event.message (User.create "U1" "alice").id
          (mismatch_message (User.create "U1" "alice").status)])
    ∧ (∀ st : Status, mismatch_message st ≠ NO_ACCEPT_ARGUMENTS) :=
  guard_before_arity_spec env0 (User.create "U1" "alice") 0 "pause" "now" [] [.active]
    (by decide) rfl (by decide)

/-- C4 (amended): in every state reachable from a fresh session by command
and timer transitions, LoggedOut status implies no armed follow-up timer.
The original claim's second conjunct fails: logout does not clear the pause
timestamp, so it may remain set while LoggedOut. -/
theorem reachable_loggedout_no_timer (env : Env) (uid uname : String) (u : User)
    (h : Reachable env (User.create uid uname) u) :
    u.status = .logged_out → u.timer = none := by
  induction h with
  | refl => intro _; rfl
  | tail _ hstep ih => exact step_timer_inv hstep ih

/-- Evaluated instance for C4: the fresh session itself is reachable,
logged out and has no timer. -/
theorem reachable_loggedout_no_timer_witness : (User.create "U1" "alice").timer = none :=
  reachable_loggedout_no_timer env0 "U1" "alice" (User.create "U1" "alice")
    Relation.ReflTransGen.refl rfl

/-- C4 counterexample: delivering login at time 0, pause at time 100 and
logout at time 200 to a fresh session reaches a LoggedOut state whose
pause timestamp still holds the pause instant 100, not null. -/
theorem loggedout_pause_time_cex :
    ¬ (∀ (env : Env) (uid uname : String) (u : User),
        Reachable env (User.create uid uname) u →
        u.status = .logged_out → u.timer = none ∧ u.pause_time = none) := by
  intro hcl
  have hr : Reachable env0 (User.create "U1" "alice") cex3.1 := by
    refine Relation.ReflTransGen.head
      (Step.cmd "login" 0 (User.create "U1" "alice") cex1.1 cex1.2 rfl) ?_
    refine Relation.ReflTransGen.head (Step.cmd "pause" 100 cex1.1 cex2.1 cex2.2 rfl) ?_
    exact Relation.ReflTransGen.single (Step.cmd "logout" 200 cex2.1 cex3.1 cex3.2 rfl)
  have h2 := hcl env0 "U1" "alice" cex3.1 hr rfl
  exact absurd h2.2 (by decide)

/-- C5: logout from Active adds now - anchor (from Paused: pause_time -
anchor) to the accumulated work time, cancels the timer, goes LoggedOut,
sends the goodbye, logs, and uploads the end-of-day report built from the
full pending-updates list and the final total, addressed to the admins
together with the user; every pending update occurs verbatim (in rendered
form) in the report's task text. -/
theorem logout_spec (env : Env) (u : User) (now a wt : Int) (ups : List String)
    (ha : u.timer_start_time = some a) (hw : u.working_time = some wt)
    (hu : u.updates = some ups) :
    (u.status = .active →
      u.dispatch env "logout" [] now =
        some ({ u with working_time := some (wt + (now - a)),
                       status := .logged_out, timer := none },
          [Event.message u.id LOGOUT_MESSAGE, Event.log u.log_file_path "Logged out",
           Event.fileUpload (env.admins ∪ {"@" ++ u.name})
             (statsContent (env.fmtDate now)
               ((env.fmtTimedelta (wt + (now - a))).dropRight 10 ++ " hours") ups)
             (u.name ++ "_stats.txt")]))
    ∧ (∀ pt, u.status = .paused → u.pause_time = some pt →
        u.dispatch env "logout" [] now =
          some ({ u with working_time := some (wt + (pt - a)),
                         status := .logged_out, timer := none },
            [Event.message u.id LOGOUT_MESSAGE, Event.log u.log_file_path "Logged out",
             Event.fileUpload (env.admins ∪ {"@" ++ u.name})
               (statsContent (env.fmtDate now)
                 ((env.fmtTimedelta (wt + (pt - a))).dropRight 10 ++ " hours") ups)
               (u.name ++ "_stats.txt")]))
    ∧ ("@" ++ u.name) ∈ env.admins ∪ ({"@" ++ u.name} : Finset String)
    ∧ env.admins ⊆ env.admins ∪ ({"@" ++ u.name} : Finset String)
    ∧ (∀ x ∈ ups, ∃ p q, tasksString ups = p ++ (" => " ++ x.replace "\n" "\n    ") ++ q) := by
  refine ⟨?_, ?_, Finset.mem_union_right _ (Finset.mem_singleton_self _),
    Finset.subset_union_left, fun x hx => mem_tasksString ups x hx⟩
  · intro hs
    simp [User.dispatch, withGuard, withArity0, hs, User.logout, User.relay_stats,
      ha, hw, hu, bind, Option.bind, User.slack_message, User.logLine]
  · intro pt hs hp
    have hs' : ¬ u.status = .active := by rw [hs]; intro hc; cases hc
    simp [User.dispatch, withGuard, withArity0, hs, hs', User.logout, User.relay_stats,
      ha, hw, hu, hp, bind, Option.bind, User.slack_message, User.logLine]

/-- Evaluated instance for C5: logging out the concrete active session at
time 50 finalizes the work time and uploads the report. -/
theorem logout_spec_witness :
    exActive.dispatch env0 "logout" [] 50 =
      some ({ exActive with working_time := some (0 + (50 - 0)),
                            status := .logged_out, timer := none },
        [Event.message exActive.id LOGOUT_MESSAGE,
         Event.log exActive.log_file_path "Logged out",
         Event.fileUpload (env0.admins ∪ {"@" ++ exActive.name})
           (statsContent (env0.fmtDate 50)
             ((env0.fmtTimedelta (0 + (50 - 0))).dropRight 10 ++ " hours") ["wrote the spec"])
           (exActive.name ++ "_stats.txt")]) :=
  (logout_spec env0 exActive 50 0 0 ["wrote the spec"] rfl rfl rfl).1 rfl

/-- C6: update on an Active session with any text, the empty string
included, appends the text to the pending updates, adds now - anchor to
the accumulated work time, rearms the timer at the full interval with the
anchor reset to now, sends the thanks message and logs, staying Active. -/
theorem update_spec (env : Env) (u : User) (content : String) (now a wt : Int)
    (ups : List String) (hs : u.status = .active) (ha : u.timer_start_time = some a)
    (hw : u.working_time = some wt) (hu : u.updates = some ups) :
    u.dispatch env "update" [content] now =
      some ({ u with updates := some (ups ++ [content]),
                     working_time := some (wt + (now - a)),
                     timer_start_time := some now,
                     timer := some FOLLOWUP_TIME },
        [Event.message u.id UPDATE_MESSAGE,
         Event.log u.log_file_path ("Work update: " ++ content.replace "\n" "\n\t")]) := by
  simp [User.dispatch, withGuard, withArity1, hs, User.update, ha, hw, hu, bind,
    Option.bind, User.initiate_followup, User.slack_message, User.logLine]

/-- Evaluated instance for C6: an update with the empty argument still
rearms the timer at the full interval. -/
theorem update_spec_witness :
    exActive.dispatch env0 "update" [""] 10 =
      some ({ exActive with updates := some (["wrote the spec"] ++ [""]),
                            working_time := some (0 + (10 - 0)),
                            timer_start_time := some 10,
                            timer := some FOLLOWUP_TIME },
        [Event.message exActive.id UPDATE_MESSAGE,
         Event.log exActive.log_file_path
           ("Work update: " ++ ("" : String).replace "\n" "\n\t")]) :=
  update_spec env0 exActive "" 10 0 0 ["wrote the spec"] rfl rfl rfl rfl

/-- C7: login on a LoggedOut session resets the accumulated work time to
zero and the pending updates to the empty list, goes Active, sends the
morning greeting, logs the login, and arms the follow-up timer at the full
interval anchored at now. -/
theorem login_spec (env : Env) (u : User) (now : Int) (hs : u.status = .logged_out) :
    u.dispatch env "login" [] now =
      some ({ u with status := .active, working_time := some 0,
                     updates := some ([] : List String),
                     timer_start_time := some now, timer := some FOLLOWUP_TIME },
        [Event.message u.id MORNING_MESSAGE, Event.log u.log_file_path "Logged in"]) := by
  simp [User.dispatch, withGuard, withArity0, hs, User.login, User.initiate_followup,
    User.slack_message, User.logLine]

/-- Evaluated instance for C7: a fresh session logging in at time 0. -/
theorem login_spec_witness :
    (User.create "U1" "alice").dispatch env0 "login" [] 0 =
      some ({ User.create "U1" "alice" with
                status := .active, working_time := some 0,
                updates := some ([] : List String),
                timer_start_time := some 0, timer := some FOLLOWUP_TIME },
        [Event.message (User.create "U1" "alice").id MORNING_MESSAGE,
         Event.log (User.create "U1" "alice").log_file_path "Logged in"]) :=
  login_spec env0 (User.create "U1" "alice") 0 rfl

/-- Helper: dropWhile is the identity on a list whose head fails the
test. -/
theorem dropWhile_head_false (p : Char → Bool) (m : List Char)
    (hm : ∀ c, m.head? = some c → p c = false) : m.dropWhile p = m := by
  cases m with
  | nil => rfl
  | cons c m' =>
    rw [List.dropWhile_cons, hm c rfl]
    simp

/-- Helper: the non-whitespace test takes exactly the leading token and
drops to the separating space. -/
theorem token_split (l : List Char) (m : List Char) (h1 : ∀ c ∈ l, pyWhite c = false) :
    ((l ++ ' ' :: m).takeWhile fun c => !pyWhite c) = l ∧
    ((l ++ ' ' :: m).dropWhile fun c => !pyWhite c) = ' ' :: m := by
  induction l with
  | nil =>
    constructor <;>
      simp [List.takeWhile_cons, List.dropWhile_cons, show pyWhite ' ' = true from rfl]
  | cons c l ih =>
    have hc : pyWhite c = false := h1 c (List.mem_cons_self c l)
    have ih' := ih fun d hd => h1 d (List.mem_cons_of_mem c hd)
    constructor
    · simp [List.takeWhile_cons, hc, ih'.1]
    · simp [List.dropWhile_cons, hc, ih'.2]

/-- Helper: splitting a whitespace-free verb, one space, and a remainder
that does not start with whitespace recovers the verb and the verbatim
remainder. -/
theorem pySplitNone1_append (v r : String) (hv : v ≠ "")
    (h1 : ∀ c ∈ v.data, pyWhite c = false)
    (h2 : ∀ c, r.data.head? = some c → pyWhite c = false) :
    pySplitNone1 (v ++ " " ++ r) = if r = "" then [v] else [v, r] := by
  obtain ⟨l⟩ := v
  obtain ⟨m⟩ := r
  have hl : l ≠ [] := fun h => hv (congrArg String.mk h)
  obtain ⟨c, l', rfl⟩ := List.exists_cons_of_ne_nil hl
  have hdata : (String.mk (c :: l') ++ " " ++ String.mk m).data = (c :: l') ++ ' ' :: m := by
    rw [String.data_append, String.data_append]
    rw [List.append_assoc]
    rfl
  have hc : pyWhite c = false := h1 c (List.mem_cons_self c l')
  have hdw : ((c :: l') ++ ' ' :: m).dropWhile pyWhite = (c :: l') ++ ' ' :: m := by
    rw [List.cons_append, List.dropWhile_cons, hc]
    simp
  have hne : (c :: l') ++ ' ' :: m ≠ [] := by simp
  have hts := token_split (c :: l') m h1
  have hrest : (((c :: l') ++ ' ' :: m).dropWhile fun d => !pyWhite d).dropWhile pyWhite
      = m := by
    rw [hts.2, List.dropWhile_cons, show pyWhite ' ' = true from rfl]
    simp only [if_true]
    exact dropWhile_head_false pyWhite m h2
  unfold pySplitNone1
  simp only [hdata, hdw, if_neg hne, hts.1, hrest]
  cases m with
  | nil => rfl
  | cons c' m' =>
    have hne' : ¬ (String.mk (c' :: m') = "") := by
      intro h
      exact List.noConfusion (congrArg String.data h)
    rw [if_neg hne']
    rfl

/-- C9 (amended): the dispatcher splits the raw input on the first
whitespace run into a verb and an optional verbatim remainder, and acts on
that split; provided the command's status guard passes (help has no
guard), a zero-argument command followed by trailing text is rejected with
the no-arguments message with no mutation, update receives the entire
remainder after the first split verbatim — embedded whitespace included —
as its single argument, and update with no trailing text runs with the
empty string.  (When the guard fails, the illegal-transition message is
sent instead; see the counterexample.) -/
theorem dispatcher_arity_spec (env : Env) (u : User) (now : Int) :
    (∀ input, pySplitNone1 input = [] → u.handle_command env input now = some (u, []))
    ∧ (∀ input verb rest, pySplitNone1 input = verb :: rest →
        u.handle_command env input now = u.dispatch env (pyLower verb) rest now)
    ∧ (∀ v arg args, v ∈ zero_arg_commands →
        (∀ ss, allowed_statuses v = some ss → u.status ∈ ss) →
        u.dispatch env v (arg :: args) now =
          some (u, [Event.message u.id NO_ACCEPT_ARGUMENTS]))
    ∧ (u.status = .active → ∀ arg, u.dispatch env "update" [arg] now = u.update arg now)
    ∧ (u.status = .active → u.dispatch env "update" [] now = u.update "" now)
    ∧ (∀ v r, v ≠ "" → (∀ c ∈ v.data, pyWhite c = false) →
        (∀ c, r.data.head? = some c → pyWhite c = false) →
        pySplitNone1 (v ++ " " ++ r) = if r = "" then [v] else [v, r]) := by
  refine ⟨?_, ?_, ?_, ?_, ?_, pySplitNone1_append⟩
  · intro input h
    unfold User.handle_command
    rw [h]
  · intro input verb rest h
    unfold User.handle_command
    rw [h]
  · intro v arg args hz hg
    simp only [zero_arg_commands, List.mem_cons, List.mem_singleton,
      List.not_mem_nil, or_false] at hz
    rcases hz with rfl | rfl | rfl | rfl | rfl
    · simp [User.dispatch, withArity0, User.slack_message]
    · have heq := List.mem_singleton.mp (hg [Status.logged_out] rfl)
      simp [User.dispatch, withGuard, withArity0, heq, User.slack_message]
    · have heq := List.mem_singleton.mp (hg [Status.active] rfl)
      simp [User.dispatch, withGuard, withArity0, heq, User.slack_message]
    · have heq := List.mem_singleton.mp (hg [Status.paused] rfl)
      simp [User.dispatch, withGuard, withArity0, heq, User.slack_message]
    · have hmem := hg [Status.active, Status.paused] rfl
      rcases List.mem_cons.mp hmem with heq | hmem'
      · simp [User.dispatch, withGuard, withArity0, heq, User.slack_message]
      · have heq := List.mem_singleton.mp hmem'
        simp [User.dispatch, withGuard, withArity0, heq, User.slack_message]
  · intro hs arg
    simp [User.dispatch, withGuard, withArity1, hs]
  · intro hs
    simp [User.dispatch, withGuard, withArity1, hs]

/-- C9 counterexample: "pause now" delivered to a LoggedOut session is
answered with the logged-out mismatch message, not the no-arguments
message, because the status guard runs first. -/
theorem dispatcher_arity_cex :
    (User.create "U1" "alice").handle_command env0 "pause now" 0 =
      some (User.create "U1" "alice",
        [Event.message "U1" (mismatch_message .logged_out)])
    ∧ mismatch_message .logged_out ≠ NO_ACCEPT_ARGUMENTS :=
  ⟨rfl, by decide⟩

/-- Evaluated instance for C9: an Active session rejects "pause now" with
the no-arguments message, and the splitter keeps the update remainder
verbatim. -/
theorem dispatcher_arity_spec_witness :
    exActive.dispatch env0 "pause" ["now"] 0 =
      some (exActive, [Event.message exActive.id NO_ACCEPT_ARGUMENTS])
    ∧ pySplitNone1 ("update" ++ " " ++ "foo  bar") =
        (if ("foo  bar" : String) = "" then ["update"] else ["update", "foo  bar"]) := by
  constructor
  · refine (dispatcher_arity_spec env0 exActive 0).2.2.1 "pause" "now" [] ?_ ?_
    · decide
    · intro ss hss
      rw [show allowed_statuses "pause" = some [Status.active] from rfl] at hss
      injection hss with hss
      rw [← hss]
      decide
  · refine (dispatcher_arity_spec env0 exActive 0).2.2.2.2.2 "update" "foo  bar" ?_ ?_ ?_
    · decide
    · decide
    · intro c hc
      have hc' : some 'f' = some c := hc
      injection hc' with hc'
      rw [← hc']
      rfl

end WhatUDoing
